import Mathlib

/-!
Shallow embedding of the ledger-extraction core (`src/schema.py` and
`src/validation.py`) together with proofs about the claims of the
specification.

Modelling conventions:
* A cell of a row mapping / dataframe is a Python scalar, modelled by `Cell`
  (`None`, float `nan`, a string, or an `int`).
* Python machine floats are modelled as exact rationals (`PyFloat`), with the
  special values `inf` and `nan` kept symbolic.  All concrete numbers appearing
  in the verified properties are small enough that IEEE doubles represent the
  relevant comparisons exactly, so the rational model agrees with the Python
  evaluation on every input considered here.
* Python string predicates (`str.isdigit`, whitespace stripping, lower-casing)
  are modelled on the ASCII fragment; exotic Unicode numerals are outside the
  scope of the model.
* Code that can raise an exception is modelled in `Except PyErr`; the single
  reachable exception in the modelled fragment is the `OverflowError` raised
  by `int(float("inf"))` inside `safe_to_int`.
-/

set_option autoImplicit false

/-- Decidable equality for `Except` results (needed to evaluate concrete
runs of the modelled functions). -/
instance {ε α : Type} [DecidableEq ε] [DecidableEq α] : DecidableEq (Except ε α) := fun x y =>
  match x, y with
  | .error a, .error b =>
    match decEq a b with
    | .isTrue h => .isTrue (h ▸ rfl)
    | .isFalse h => .isFalse (fun hh => h (by cases hh; rfl))
  | .error _, .ok _ => .isFalse (fun hh => by cases hh)
  | .ok _, .error _ => .isFalse (fun hh => by cases hh)
  | .ok a, .ok b =>
    match decEq a b with
    | .isTrue h => .isTrue (h ▸ rfl)
    | .isFalse h => .isFalse (fun hh => h (by cases hh; rfl))

/-- Characters stripped by Python's `str.strip()` (ASCII fragment). -/
def pyWhitespace (c : Char) : Bool :=
  c = ' ' ∨ c = '\t' ∨ c = '\n' ∨ c = '\r' ∨ c = '\x0b' ∨ c = '\x0c'

/-- `str.strip()` on a character list. -/
def pyTrimList (cs : List Char) : List Char :=
  ((cs.dropWhile pyWhitespace).reverse.dropWhile pyWhitespace).reverse

/-- `str.strip()`. -/
def pyTrim (s : String) : String :=
  ⟨pyTrimList s.data⟩

/-- `str.rstrip()` on a character list. -/
def pyTrimRightList (cs : List Char) : List Char :=
  (cs.reverse.dropWhile pyWhitespace).reverse

/-- `str.lower()` on the ASCII fragment. -/
def pyLowerChar (c : Char) : Char :=
  if 'A' ≤ c ∧ c ≤ 'Z' then Char.ofNat (c.toNat + 32) else c

/-- `str.lower()`. -/
def pyToLower (s : String) : String :=
  ⟨s.data.map pyLowerChar⟩

/-- A Python scalar value as it occurs in a row mapping. -/
inductive Cell where
  | pynone
  | nan
  | str (s : String)
  | int (n : Int)
deriving DecidableEq, Repr

/-- Python's `str()` on a `Cell` (`str(None) = "None"`, `str(float("nan")) = "nan"`). -/
def pyStr : Cell → String
  | .pynone => "None"
  | .nan => "nan"
  | .str s => s
  | .int n => toString n

/-- `True` exactly for string cells; models Python's `isinstance(v, str)`. -/
def isStrCell : Cell → Bool
  | .str _ => true
  | _ => false

/-- The observable result of Python's `float(s)`: a finite value (exact
rational model of the double), an infinity, or a NaN. -/
inductive PyFloat where
  | finite (q : ℚ)
  | inf (neg : Bool)
  | nan
deriving DecidableEq

/-- Decimal value of a list of ASCII digits. -/
def digitsToNat (cs : List Char) : Nat :=
  cs.foldl (fun a c => 10 * a + (c.toNat - 48)) 0

/-- Exponent part of a float literal (after the `e`). -/
def parseExpPart (cs : List Char) : Option Int :=
  match cs with
  | '+' :: ds => if ds ≠ [] ∧ ds.all Char.isDigit then some (digitsToNat ds) else none
  | '-' :: ds => if ds ≠ [] ∧ ds.all Char.isDigit then some (-(digitsToNat ds : Int)) else none
  | ds => if ds ≠ [] ∧ ds.all Char.isDigit then some (digitsToNat ds) else none

/-- Mantissa of a float literal: `digits`, `digits.digits`, `.digits` or `digits.`. -/
def parseMantissa (cs : List Char) : Option ℚ :=
  let ip := cs.takeWhile Char.isDigit
  match cs.dropWhile Char.isDigit with
  | [] => if ip.isEmpty then none else some ((digitsToNat ip : ℚ))
  | '.' :: fp =>
      if fp.all Char.isDigit ∧ ¬(ip.isEmpty ∧ fp.isEmpty) then
        some ((digitsToNat ip : ℚ) + (digitsToNat fp : ℚ) / ((10 : ℚ) ^ fp.length))
      else none
  | _ => none

/-- A decimal float literal with optional exponent (underscore separators of
Python 3.6+ are outside the model). -/
def parseNumberChars (cs : List Char) : Option ℚ :=
  let mant := cs.takeWhile (fun c => c ≠ 'e')
  match cs.dropWhile (fun c => c ≠ 'e') with
  | [] => parseMantissa mant
  | _ :: ecs =>
      match parseMantissa mant, parseExpPart ecs with
      | some m, some ex =>
          some (if 0 ≤ ex then m * (10 : ℚ) ^ ex.toNat else m / (10 : ℚ) ^ (-ex).toNat)
      | _, _ => none

/-- Python's `float(s)` on a stripped string: optional sign, then (case
insensitively) `inf`/`infinity`/`nan` or a decimal literal; `none` models the
`ValueError` raised on anything else. -/
def pyParseFloat (s : String) : Option PyFloat :=
  let t := (pyToLower (pyTrim s)).data
  let signed : Bool × List Char :=
    match t with
    | '+' :: r => (false, r)
    | '-' :: r => (true, r)
    | r => (false, r)
  let neg := signed.1
  let body := signed.2
  if body = "inf".data ∨ body = "infinity".data then some (.inf neg)
  else if body = "nan".data then some .nan
  else
    match parseNumberChars body with
    | some q => some (.finite (if neg then -q else q))
    | none => none

/-- Truncation toward zero, Python's `int()` on a finite float. -/
def ratTrunc (q : ℚ) : Int :=
  Int.tdiv q.num (q.den : Int)

/-- Exceptions that the modelled fragment can raise. -/
inductive PyErr where
  | overflowError
deriving DecidableEq, Repr

/-- `safe_to_int` of `src/schema.py`.  `int(float(s))` raises an uncaught
`OverflowError` when `float(s)` is infinite, because the `except` clause only
catches `ValueError` and `TypeError`; every other failure yields `None`. -/
def safe_to_int (value : Cell) : Except PyErr (Option Int) :=
  match value with
  | .pynone => .ok none
  | .nan => .ok none
  | v =>
    let s := pyTrim (pyStr v)
    if s = "" ∨ s = "nan" ∨ s = "None" ∨ s = "NaN" then .ok none
    else
      match pyParseFloat s with
      | none => .ok none
      | some (.finite q) => .ok (some (ratTrunc q))
      | some .nan => .ok none
      | some (.inf _) => .error .overflowError

/-- A row mapping (pandas `Series`): an association list from field names to
cells, looked up in order. -/
abbrev Row := List (String × Cell)

/-- First value stored under key `k`, if any. -/
def rowFindVal (r : Row) (k : String) : Option Cell :=
  (r.find? (fun p => p.1 == k)).map Prod.snd

/-- `row.get(k)`: pandas returns `None` when the key is absent. -/
def rowGet (r : Row) (k : String) : Cell :=
  (rowFindVal r k).getD .pynone

/-- `row.get(k, d)` with an explicit default. -/
def rowGetD (r : Row) (k : String) (d : Cell) : Cell :=
  (rowFindVal r k).getD d

/-- `k in row`: membership in the index. -/
def rowHasKey (r : Row) (k : String) : Bool :=
  (rowFindVal r k).isSome

/-- `UNICODE_FRACTION_MAP` of `src/schema.py` (in insertion order). -/
def UNICODE_FRACTION_MAP : List (String × String) :=
  [("¼", "1/4"), ("½", "1/2"), ("¾", "3/4")]

/-- `HISTORICAL_FRACTION_MAP` of `src/schema.py`. -/
def HISTORICAL_FRACTION_MAP : List (String × String) :=
  [("q", "1/4"), ("qd", "1/4"), ("qr", "1/4"), ("ob", "1/2"), ("obd", "1/2")]

/-- `VALID_PENCE_FRACTIONS` of `src/config.py`. -/
def VALID_PENCE_FRACTIONS : List String := ["", "1/4", "1/2", "3/4"]

/-- `MAX_SHILLINGS` of `src/schema.py`. -/
def MAX_SHILLINGS : Int := 19

/-- `MAX_PENCE` of `src/schema.py`. -/
def MAX_PENCE : Int := 11

/-- `needle in hay` on Python strings: substring containment. -/
def isSubstring (needle hay : String) : Bool :=
  (List.range (hay.data.length + 1)).any
    (fun i => (hay.data.drop i).take needle.data.length = needle.data)

/-- `re.sub(r'\s*d$', '', s)`: remove a trailing `d` together with the
whitespace immediately before it. -/
def stripTrailingD (s : String) : String :=
  if s.data.getLast? = some 'd' then ⟨pyTrimRightList s.data.dropLast⟩ else s

/-- Split a character list at every `/`. -/
def splitOnSlash : List Char → List (List Char)
  | [] => [[]]
  | c :: rest =>
    let r := splitOnSlash rest
    if c = '/' then [] :: r
    else
      match r with
      | [] => [[c]]
      | h :: t => (c :: h) :: t

/-- Rejoin the pieces produced by `splitOnSlash` with single slashes. -/
def joinSlash : List (List Char) → List Char
  | [] => []
  | [x] => x
  | x :: xs => x ++ '/' :: joinSlash xs

/-- `re.sub(r'\s*/\s*', '/', s)`: around every `/`, delete the adjacent
whitespace.  Equivalently: split on `/`, trim the inner boundaries, rejoin. -/
def normalizeSlash (s : String) : String :=
  match splitOnSlash s.data with
  | [] => s
  | [_] => s
  | p :: rest =>
      let mids := (rest.take (rest.length - 1)).map pyTrimList
      let last := (rest.getLastD []).dropWhile pyWhitespace
      ⟨joinSlash (pyTrimRightList p :: mids ++ [last])⟩

/-- Python's `str.isdigit`, restricted to the ASCII fragment of the model:
nonempty and all characters are `0`-`9`. -/
def isPyDigit (s : String) : Bool :=
  !s.isEmpty && s.data.all Char.isDigit

/-- `clean_pence_fraction` of `src/schema.py`.  The first component is the
(possibly reinterpreted) whole-pence value, the second the canonical fraction
token. -/
def clean_pence_fraction (pence_whole : Cell) (pence_fraction : String) : Cell × String :=
  let frac0 := pyToLower (pyTrim pence_fraction)
  if frac0 = "" ∨ frac0 = "none" ∨ frac0 = "nan" then (pence_whole, "")
  else
    let frac := pyTrim (stripTrailingD frac0)
    let original_frac := pyTrim pence_fraction
    match UNICODE_FRACTION_MAP.find? (fun p => isSubstring p.1 original_frac) with
    | some p => (pence_whole, p.2)
    | none =>
      match HISTORICAL_FRACTION_MAP.find? (fun p => p.1 == frac) with
      | some p => (pence_whole, p.2)
      | none =>
        if frac ∈ VALID_PENCE_FRACTIONS then (pence_whole, frac)
        else
          let frac_normalized := normalizeSlash frac
          if frac_normalized ∈ VALID_PENCE_FRACTIONS then (pence_whole, frac_normalized)
          else if isPyDigit frac ∧ (pyTrim (pyStr pence_whole) = "" ∨ pyTrim (pyStr pence_whole) = "0") then
            (Cell.int (digitsToNat frac.data), "")
          else (pence_whole, "")

/-- `normalize_empty_values` of `src/schema.py`: `None` and `NaN` become the
empty string; every other value is returned unchanged (the code returns
`value` itself, with no conversion to `str`). -/
def normalize_empty_values (value : Cell) : Cell :=
  match value with
  | .pynone => .str ""
  | .nan => .str ""
  | v => v

/-- One entry of the `issues` list built by `validate_currency_range`. -/
structure RangeIssue where
  field : String
  value : Int
  issue : String
  severity : String
deriving DecidableEq, Repr

/-- The dictionary returned by `validate_currency_range`. -/
structure RangeResult where
  is_valid : Bool
  issues : List RangeIssue
deriving DecidableEq, Repr

/-- `validate_currency_range` of `src/schema.py`.  The three fields are
coerced in source order (shillings, pence, pounds); an `OverflowError` raised
by `safe_to_int` propagates. -/
def validate_currency_range (row : Row) : Except PyErr RangeResult :=
  match safe_to_int (rowGet row "amount_shillings") with
  | .error e => .error e
  | .ok shillings =>
    let issues_s : List RangeIssue :=
      match shillings with
      | some sh =>
          if sh < 0 ∨ sh > MAX_SHILLINGS then
            [⟨"amount_shillings", sh, s!"Shillings must be 0-{MAX_SHILLINGS}, got {sh}", "error"⟩]
          else []
      | none => []
    match safe_to_int (rowGet row "amount_pence_whole") with
    | .error e => .error e
    | .ok pence =>
      let issues_d : List RangeIssue :=
        match pence with
        | some pe =>
            if pe < 0 ∨ pe > MAX_PENCE then
              [⟨"amount_pence_whole", pe, s!"Pence must be 0-{MAX_PENCE}, got {pe}", "error"⟩]
            else []
        | none => []
      match safe_to_int (rowGet row "amount_pounds") with
      | .error e => .error e
      | .ok pounds =>
        let issues_p : List RangeIssue :=
          match pounds with
          | some po =>
              if po < 0 then
                [⟨"amount_pounds", po, s!"Pounds cannot be negative, got {po}", "error"⟩]
              else []
          | none => []
        let issues := issues_s ++ issues_d ++ issues_p
        .ok ⟨issues.isEmpty, issues⟩

/-- `has_any_amount` of `src/schema.py`. -/
def has_any_amount (row : Row) : Bool :=
  ["amount_pounds", "amount_shillings", "amount_pence_whole"].any fun col =>
    match rowFindVal row col with
    | some v =>
        let val := pyTrim (pyStr v)
        !(val = "" ∨ val = "None" ∨ val = "nan" : Bool)
    | none => false

/-- `infer_row_type` of `src/schema.py`.  The result is whatever object sits
in `row_type` (defaulting to `"entry"`), except that rows without any amount
are reclassified to `"section_header"` unless typed `"title"`/`"total"`. -/
def infer_row_type (row : Row) : Cell :=
  let current_type := rowGetD row "row_type" (.str "entry")
  if current_type = .str "title" then .str "title"
  else if current_type = .str "total" then .str "total"
  else if !has_any_amount row then .str "section_header"
  else current_type

/-- Round half to even on an exact rational, Python's `round` on floats. -/
def roundHalfEven (x : ℚ) : Int :=
  let f := ⌊x⌋
  let r := x - (f : ℚ)
  if r < 1/2 then f
  else if 1/2 < r then f + 1
  else if f % 2 = 0 then f else f + 1

/-- Python's `round(x, 2)` in the exact-rational float model. -/
def pyRound2 (x : ℚ) : ℚ :=
  ((roundHalfEven (x * 100) : ℚ)) / 100

/-- Factor 1 of `calculate_confidence_score`: non-placeholder description. -/
def factor_description (row : Row) : ℚ :=
  let desc := pyTrim (pyStr (rowGetD row "description" (.str "")))
  if desc ≠ "" ∧ pyToLower desc ∉ (["", "none", "nan"] : List String) then 0.15 else 0

/-- Factor 2: at least one amount field present. -/
def factor_has_amount (row : Row) : ℚ :=
  if has_any_amount row then 0.15 else 0

/-- Factor 3: pence fraction among the canonical four. -/
def factor_fraction (row : Row) : ℚ :=
  let pence_frac := pyTrim (pyStr (rowGetD row "amount_pence_fraction" (.str "")))
  if pence_frac ∈ VALID_PENCE_FRACTIONS then 0.15 else 0

/-- Factor 4: row type consistent with amount presence. -/
def factor_row_type (row : Row) : ℚ :=
  let row_type := rowGetD row "row_type" (.str "")
  let has_amounts := has_any_amount row
  if row_type = .str "entry" ∧ has_amounts then 0.15
  else if row_type = .str "section_header" ∧ ¬has_amounts then 0.15
  else if row_type = .str "total" ∧ has_amounts then 0.15
  else if row_type = .str "title" then 0.15
  else 0

/-- Factor 5: every present amount field parses as a float. -/
def factor_numeric (row : Row) : ℚ :=
  let ok := (["amount_pounds", "amount_shillings", "amount_pence_whole"] : List String).all
    fun col =>
      let val_str := pyTrim (pyStr (rowGetD row col (.str "")))
      if val_str ≠ "" ∧ val_str ≠ "None" ∧ val_str ≠ "nan" then (pyParseFloat val_str).isSome
      else true
  if ok then 0.15 else 0

/-- Sum of the five `0.15`-weighted factors; in the source the score is
accumulated by successive `score += ...` statements, written here as a sum. -/
def confidence_base (row : Row) : ℚ :=
  factor_description row + factor_has_amount row + factor_fraction row +
    factor_row_type row + factor_numeric row

/-- `calculate_confidence_score` of `src/schema.py`.  Factor 6 consults
`validate_currency_range`, whose `OverflowError` propagates. -/
def calculate_confidence_score (row : Row) : Except PyErr ℚ :=
  match validate_currency_range row with
  | .error e => .error e
  | .ok validation =>
    let currency_factor : ℚ :=
      if validation.is_valid then 0.25
      else if validation.issues.length = 1 then 0.10
      else 0
    .ok (pyRound2 (min (confidence_base row + currency_factor) 1))

/-- `convert_to_pence` of `src/validation.py`: missing components count as 0
(`safe_to_int(x) or 0`). -/
def convert_to_pence (pounds shillings pence : Cell) : Except PyErr Int :=
  match safe_to_int pounds with
  | .error e => .error e
  | .ok p? =>
    match safe_to_int shillings with
    | .error e => .error e
    | .ok s? =>
      match safe_to_int pence with
      | .error e => .error e
      | .ok d? =>
        .ok ((p?.getD 0) * 240 + (s?.getD 0) * 12 + (d?.getD 0))

/-- `convert_to_pence` applied to the three amount fields of a row, as done
for every entry row and for the last total row. -/
def rowPence (r : Row) : Except PyErr Int :=
  convert_to_pence (rowGet r "amount_pounds") (rowGet r "amount_shillings")
    (rowGet r "amount_pence_whole")

/-- The entry-summing loop of `validate_page_arithmetic`. -/
def sumEntries (l : List Row) (acc : Int) : Except PyErr Int :=
  match l with
  | [] => .ok acc
  | r :: rest =>
    match rowPence r with
    | .error e => .error e
    | .ok v => sumEntries rest (acc + v)

/-- Specification-side list of the per-row pence values (the claims speak of
"the sum of `convert_to_pence` over all entry rows"). -/
def rowPences (l : List Row) : Except PyErr (List Int) :=
  match l with
  | [] => .ok []
  | r :: rest =>
    match rowPence r, rowPences rest with
    | .ok v, .ok vs => .ok (v :: vs)
    | .error e, _ => .error e
    | .ok _, .error e => .error e

/-- `pence_to_lsd`, the back-conversion nested in `validate_page_arithmetic`;
Python `//` and `%` with positive divisors are floor division and remainder. -/
def pence_to_lsd (total_pence : Int) : Int × Int × Int :=
  let pounds := Int.ediv total_pence 240
  let remaining := Int.emod total_pence 240
  let shillings := Int.ediv remaining 12
  let pence := Int.emod remaining 12
  (pounds, shillings, pence)

/-- The `calculated` / `stated` sub-dictionaries of the arithmetic result. -/
structure LsdTotal where
  pounds : Int
  shillings : Int
  pence : Int
  total_pence : Int
deriving DecidableEq, Repr

/-- Result dictionary of `validate_page_arithmetic`: either one of the
`can_validate=False` shapes (status plus message) or the full comparison.
The source's `matches` key is called `matched` here (`matches` is reserved
in Lean). -/
inductive PageArithResult where
  | cannotValidate (status message : String)
  | validated (status : String) (calculated stated : LsdTotal)
      (difference_pence : Int) (matched : Bool)
deriving DecidableEq, Repr

/-- The `can_validate` field of the result dictionary. -/
def PageArithResult.can_validate : PageArithResult → Bool
  | .cannotValidate _ _ => false
  | .validated _ _ _ _ _ => true

/-- The `status` field of the result dictionary. -/
def PageArithResult.status : PageArithResult → String
  | .cannotValidate st _ => st
  | .validated st _ _ _ _ => st

/-- The `difference_pence` field (0 for the `can_validate=False` shapes,
which carry no such key). -/
def PageArithResult.difference_pence : PageArithResult → Int
  | .cannotValidate _ _ => 0
  | .validated _ _ _ d _ => d

/-- The `calculated` sub-dictionary (zero for the early-return shapes). -/
def PageArithResult.calculated : PageArithResult → LsdTotal
  | .cannotValidate _ _ => ⟨0, 0, 0, 0⟩
  | .validated _ c _ _ _ => c

/-- The `stated` sub-dictionary (zero for the early-return shapes). -/
def PageArithResult.stated : PageArithResult → LsdTotal
  | .cannotValidate _ _ => ⟨0, 0, 0, 0⟩
  | .validated _ _ st _ _ => st

/-- A page: the rows of one `(file_id, page_number)` group. -/
abbrev Page := List Row

/-- `df_page[df_page["row_type"] == "entry"]`. -/
def pageEntries (page : Page) : List Row :=
  page.filter (fun r => rowGet r "row_type" == Cell.str "entry")

/-- `df_page[df_page["row_type"] == "total"]`. -/
def pageTotals (page : Page) : List Row :=
  page.filter (fun r => rowGet r "row_type" == Cell.str "total")

/-- `validate_page_arithmetic` of `src/validation.py`. -/
def validate_page_arithmetic (df_page : Page) : Except PyErr PageArithResult :=
  let entries := pageEntries df_page
  let totals := pageTotals df_page
  if totals.length = 0 then
    .ok (.cannotValidate "no_totals" "No total rows found on page")
  else if entries.length = 0 then
    .ok (.cannotValidate "no_entries" "No entry rows found on page")
  else
    match sumEntries entries 0 with
    | .error e => .error e
    | .ok entry_total_pence =>
      match rowPence (totals.getLastD []) with
      | .error e => .error e
      | .ok stated_total_pence =>
        let difference := entry_total_pence - stated_total_pence
        let calcLsd := pence_to_lsd entry_total_pence
        let stated := pence_to_lsd stated_total_pence
        .ok (.validated
          (if difference = 0 then "match" else "mismatch")
          ⟨calcLsd.1, calcLsd.2.1, calcLsd.2.2, entry_total_pence⟩
          ⟨stated.1, stated.2.1, stated.2.2, stated_total_pence⟩
          |difference|
          (decide (difference = 0)))

/-- Row whose shillings field is the string `"inf"`. -/
def rowInfShillings : Row := [("amount_shillings", Cell.str "inf")]

/-- Row with 20 shillings (out of range). -/
def rowShillings20 : Row := [("amount_shillings", Cell.str "20")]

/-- Row with the maximal in-range amounts 19s 11d £0. -/
def rowMaxValid : Row :=
  [("amount_shillings", Cell.str "19"), ("amount_pence_whole", Cell.str "11"),
   ("amount_pounds", Cell.str "0")]

/-- Row whose pounds field is the string `"Infinity"`. -/
def rowInfPounds : Row := [("amount_pounds", Cell.str "Infinity")]

/-- A bare title row. -/
def rowTitle : Row := [("row_type", Cell.str "title")]

/-- Page with one amount-less entry row and a one-penny total row; the
calculated total (0) is below the stated total (1). -/
def pageEntryBelowTotal : Page :=
  [[("row_type", Cell.str "entry")],
   [("row_type", Cell.str "total"), ("amount_pence_whole", Cell.str "1")]]

/-- The worked example page of the specification: entries £1 5s 6d and
0£ 14s 6d against a stated total of £2 0s 0d. -/
def pageWorkedExample : Page :=
  [[("row_type", Cell.str "entry"), ("amount_pounds", Cell.str "1"),
    ("amount_shillings", Cell.str "5"), ("amount_pence_whole", Cell.str "6")],
   [("row_type", Cell.str "entry"), ("amount_pounds", Cell.str "0"),
    ("amount_shillings", Cell.str "14"), ("amount_pence_whole", Cell.str "6")],
   [("row_type", Cell.str "total"), ("amount_pounds", Cell.str "2"),
    ("amount_shillings", Cell.str "0"), ("amount_pence_whole", Cell.str "0")]]

/-- A page holding a single section-header row (no totals, no entries). -/
def pageHeaderOnly : Page := [[("row_type", Cell.str "section_header")]]

/-- A page holding a single total row (no entries). -/
def pageTotalOnly : Page := [[("row_type", Cell.str "total")]]

/-- Claim C9 (confirmed): for every non-negative pence total, the
back-conversion `pence_to_lsd` produces shillings in `[0,19]` and pence in
`[0,11]`, and re-applying the minor-unit formula recovers the input. -/
theorem C9_pence_lsd_round_trip (n : Int) (_hn : 0 ≤ n) :
    0 ≤ (pence_to_lsd n).2.1 ∧ (pence_to_lsd n).2.1 ≤ 19 ∧
    0 ≤ (pence_to_lsd n).2.2 ∧ (pence_to_lsd n).2.2 ≤ 11 ∧
    (pence_to_lsd n).1 * 240 + (pence_to_lsd n).2.1 * 12 + (pence_to_lsd n).2.2 = n := by
  unfold pence_to_lsd
  dsimp only
  have hr0 : 0 ≤ Int.emod n 240 := Int.emod_nonneg n (by norm_num)
  have hr1 : Int.emod n 240 < 240 := Int.emod_lt_of_pos n (by norm_num)
  have hd0 : 0 ≤ Int.emod (Int.emod n 240) 12 := Int.emod_nonneg _ (by norm_num)
  have hd1 : Int.emod (Int.emod n 240) 12 < 12 := Int.emod_lt_of_pos _ (by norm_num)
  have e1 : 240 * Int.ediv n 240 + Int.emod n 240 = n := Int.ediv_add_emod n 240
  have e2 : 12 * Int.ediv (Int.emod n 240) 12 + Int.emod (Int.emod n 240) 12 =
      Int.emod n 240 := Int.ediv_add_emod _ 12
  refine ⟨?_, ?_, hd0, by omega, by omega⟩ <;> omega

/-- Witness for C9 at the concrete total 487 = £2 0s 7d. -/
theorem C9_pence_lsd_round_trip_witness :
    0 ≤ (pence_to_lsd 487).2.1 ∧ (pence_to_lsd 487).2.1 ≤ 19 ∧
    0 ≤ (pence_to_lsd 487).2.2 ∧ (pence_to_lsd 487).2.2 ≤ 11 ∧
    (pence_to_lsd 487).1 * 240 + (pence_to_lsd 487).2.1 * 12 + (pence_to_lsd 487).2.2 = 487 :=
  C9_pence_lsd_round_trip 487 (by decide)

/-- Claim C3 (code_bug): the range checks themselves behave as claimed
(shillings 20 gives exactly one issue on `amount_shillings`; 19s/11d/£0 is
valid), but the "never raises" part fails: on a row whose shillings field is
`"inf"`, `int(float("inf"))` inside `safe_to_int` raises an uncaught
`OverflowError`, which propagates out of `validate_currency_range`. -/
theorem C3_currency_range_eval :
    validate_currency_range rowInfShillings = .error PyErr.overflowError ∧
    validate_currency_range rowShillings20 =
      .ok ⟨false, [⟨"amount_shillings", 20, "Shillings must be 0-19, got 20", "error"⟩]⟩ ∧
    validate_currency_range rowMaxValid = .ok ⟨true, []⟩ :=
  ⟨rfl, rfl, rfl⟩

/-- Claim C10 (corrected): the code never coerces to text — a non-null,
non-NaN input is returned unchanged, so an integer cell comes back as an
integer, not as a string.  This refutes "returns a string ... passes through
unchanged as text". -/
theorem C10_counterexample :
    normalize_empty_values (Cell.int 5) = Cell.int 5 ∧
    isStrCell (normalize_empty_values (Cell.int 5)) = false :=
  ⟨rfl, rfl⟩

/-- Claim C10 (corrected, amended): `None` and `NaN` map to the empty
string; every other input passes through unchanged (keeping its type). -/
theorem C10_normalize_empty (v : Cell) :
    ((v = Cell.pynone ∨ v = Cell.nan) → normalize_empty_values v = Cell.str "") ∧
    (v ≠ Cell.pynone → v ≠ Cell.nan → normalize_empty_values v = v) := by
  constructor
  · rintro (rfl | rfl) <;> rfl
  · intro h1 h2
    cases v with
    | pynone => exact absurd rfl h1
    | nan => exact absurd rfl h2
    | str s => rfl
    | int n => rfl

/-- Witness for C10: a null-like input and a string input. -/
theorem C10_normalize_empty_witness :
    normalize_empty_values Cell.pynone = Cell.str "" ∧
    normalize_empty_values (Cell.str "abc") = Cell.str "abc" :=
  ⟨(C10_normalize_empty Cell.pynone).1 (Or.inl rfl),
   (C10_normalize_empty (Cell.str "abc")).2 (by decide) (by decide)⟩

/-- Claim C8 (confirmed): `"title"` and `"total"` are sticky under
`infer_row_type`; any other row is reclassified to `"section_header"`
exactly when it has no amount, and otherwise keeps its existing type. -/
theorem C8_infer_row_type (row : Row) :
    (rowGetD row "row_type" (Cell.str "entry") = Cell.str "title" →
        infer_row_type row = Cell.str "title") ∧
    (rowGetD row "row_type" (Cell.str "entry") = Cell.str "total" →
        infer_row_type row = Cell.str "total") ∧
    (rowGetD row "row_type" (Cell.str "entry") ≠ Cell.str "title" →
     rowGetD row "row_type" (Cell.str "entry") ≠ Cell.str "total" →
        infer_row_type row =
          if has_any_amount row then rowGetD row "row_type" (Cell.str "entry")
          else Cell.str "section_header") := by
  unfold infer_row_type
  refine ⟨fun h => ?_, fun h => ?_, fun h1 h2 => ?_⟩
  · rw [if_pos h]
  · rw [if_neg (h ▸ (by decide : Cell.str "total" ≠ Cell.str "title")), if_pos h]
  · rw [if_neg h1, if_neg h2]
    cases hha : has_any_amount row <;> simp [hha]

/-- Witness for C8: a sticky title row, a sticky total row with amounts,
and an amount-less entry row that becomes a section header. -/
theorem C8_infer_row_type_witness :
    infer_row_type [("row_type", Cell.str "title")] = Cell.str "title" ∧
    infer_row_type [("row_type", Cell.str "total"), ("amount_pounds", Cell.str "5")] =
      Cell.str "total" ∧
    infer_row_type [("row_type", Cell.str "entry")] = Cell.str "section_header" := by
  refine ⟨(C8_infer_row_type _).1 (by decide), (C8_infer_row_type _).2.1 (by decide), ?_⟩
  have h := (C8_infer_row_type [("row_type", Cell.str "entry")]).2.2 (by decide) (by decide)
  rw [h]
  decide

/-- Claim C2 (confirmed): with no total rows a page reports `"no_totals"`
(also when it has no entries either); with totals but no entries it reports
`"no_entries"`; both results carry `can_validate = False` and are returned
normally (no exception, no arithmetic comparison). -/
theorem C2_missing_rows (page : Page) :
    (pageTotals page = [] →
        validate_page_arithmetic page =
          .ok (.cannotValidate "no_totals" "No total rows found on page")) ∧
    (pageTotals page ≠ [] → pageEntries page = [] →
        validate_page_arithmetic page =
          .ok (.cannotValidate "no_entries" "No entry rows found on page")) ∧
    (∀ st msg, PageArithResult.can_validate (.cannotValidate st msg) = false) := by
  refine ⟨fun h => ?_, fun h1 h2 => ?_, fun _ _ => rfl⟩
  · simp [validate_page_arithmetic, h]
  · have hlen : (pageTotals page).length ≠ 0 :=
      fun hh => h1 (List.length_eq_zero.mp hh)
    simp [validate_page_arithmetic, h2, hlen]

/-- Witness for C2: a page with a lone section header (neither totals nor
entries) and a page with a lone total row. -/
theorem C2_missing_rows_witness :
    validate_page_arithmetic pageHeaderOnly =
      .ok (.cannotValidate "no_totals" "No total rows found on page") ∧
    validate_page_arithmetic pageTotalOnly =
      .ok (.cannotValidate "no_entries" "No entry rows found on page") :=
  ⟨(C2_missing_rows pageHeaderOnly).1 (by decide),
   (C2_missing_rows pageTotalOnly).2.1 (by decide) (by decide)⟩

/-- Claim C6 (confirmed): the fraction component returned by
`clean_pence_fraction` is always one of `""`, `"1/4"`, `"1/2"`, `"3/4"`, and
an unrecognized token such as `"xyz"` is dropped with the whole pence left
unchanged (the function is total, so it never raises). -/
theorem C6_fraction_enum :
    (∀ (w : Cell) (f : String),
        (clean_pence_fraction w f).2 ∈ VALID_PENCE_FRACTIONS) ∧
    clean_pence_fraction (Cell.str "3") "xyz" = (Cell.str "3", "") := by
  constructor
  · intro w f
    simp only [clean_pence_fraction]
    split
    · simp [VALID_PENCE_FRACTIONS]
    · split
      · rename_i p hp
        have hm := List.mem_of_find?_eq_some hp
        fin_cases hm <;> simp [VALID_PENCE_FRACTIONS]
      · split
        · rename_i p hp
          have hm := List.mem_of_find?_eq_some hp
          fin_cases hm <;> simp [VALID_PENCE_FRACTIONS]
        · split
          · rename_i hmem
            simpa using hmem
          · split
            · rename_i hmem
              simpa using hmem
            · split
              · simp [VALID_PENCE_FRACTIONS]
              · simp [VALID_PENCE_FRACTIONS]
  · rfl

/-- Claim C7 (confirmed): when the trimmed, lower-cased, suffix-stripped
fraction token fails the empty/unicode/historical/canonical/whitespace rules
but consists only of digits, and the whole-pence argument trims to `""` or
`"0"`, the digits are reinterpreted as the whole pence count and the
fraction is cleared. -/
theorem C7_digit_reinterpretation (w : Cell) (f : String)
    (h0 : ¬(pyToLower (pyTrim f) = "" ∨ pyToLower (pyTrim f) = "none" ∨
            pyToLower (pyTrim f) = "nan"))
    (h1 : UNICODE_FRACTION_MAP.find? (fun p => isSubstring p.1 (pyTrim f)) = none)
    (h2 : HISTORICAL_FRACTION_MAP.find?
            (fun p => p.1 == pyTrim (stripTrailingD (pyToLower (pyTrim f)))) = none)
    (h3 : pyTrim (stripTrailingD (pyToLower (pyTrim f))) ∉ VALID_PENCE_FRACTIONS)
    (h4 : normalizeSlash (pyTrim (stripTrailingD (pyToLower (pyTrim f)))) ∉
            VALID_PENCE_FRACTIONS)
    (h5 : isPyDigit (pyTrim (stripTrailingD (pyToLower (pyTrim f)))) = true)
    (h6 : pyTrim (pyStr w) = "" ∨ pyTrim (pyStr w) = "0") :
    clean_pence_fraction w f =
      (Cell.int (digitsToNat (pyTrim (stripTrailingD (pyToLower (pyTrim f)))).data), "") := by
  simp only [clean_pence_fraction, h0, h1, h2, h3, h4, h5, if_false, ite_false]
  rw [if_pos ⟨trivial, h6⟩]

/-- Witness for C7 at the specification's example `("", "5") = (5, "")`. -/
theorem C7_digit_reinterpretation_witness :
    clean_pence_fraction (Cell.str "") "5" = (Cell.int 5, "") := by
  have h := C7_digit_reinterpretation (Cell.str "") "5"
    (by decide) (by decide) (by decide) (by decide) (by decide) (by decide) (by decide)
  exact h.trans (by decide)

/-- Factor 1 is either 0 or its weight 0.15. -/
theorem factor_description_bounds (row : Row) :
    0 ≤ factor_description row ∧ factor_description row ≤ 0.15 := by
  unfold factor_description
  dsimp only
  split_ifs <;> norm_num

/-- Factor 2 is either 0 or its weight 0.15. -/
theorem factor_has_amount_bounds (row : Row) :
    0 ≤ factor_has_amount row ∧ factor_has_amount row ≤ 0.15 := by
  unfold factor_has_amount
  split_ifs <;> norm_num

/-- Factor 3 is either 0 or its weight 0.15. -/
theorem factor_fraction_bounds (row : Row) :
    0 ≤ factor_fraction row ∧ factor_fraction row ≤ 0.15 := by
  unfold factor_fraction
  dsimp only
  split_ifs <;> norm_num

/-- Factor 4 is either 0 or its weight 0.15. -/
theorem factor_row_type_bounds (row : Row) :
    0 ≤ factor_row_type row ∧ factor_row_type row ≤ 0.15 := by
  unfold factor_row_type
  dsimp only
  split_ifs <;> norm_num

/-- Factor 5 is either 0 or its weight 0.15. -/
theorem factor_numeric_bounds (row : Row) :
    0 ≤ factor_numeric row ∧ factor_numeric row ≤ 0.15 := by
  unfold factor_numeric
  dsimp only
  split_ifs <;> norm_num

/-- The five-weight base sum stays within `[0, 0.75]`. -/
theorem confidence_base_bounds (row : Row) :
    0 ≤ confidence_base row ∧ confidence_base row ≤ 0.75 := by
  have h1 := factor_description_bounds row
  have h2 := factor_has_amount_bounds row
  have h3 := factor_fraction_bounds row
  have h4 := factor_row_type_bounds row
  have h5 := factor_numeric_bounds row
  unfold confidence_base
  constructor <;> linarith [h1.1, h1.2, h2.1, h2.2, h3.1, h3.2, h4.1, h4.2, h5.1, h5.2]

/-- Half-even rounding keeps a value of `[0, 100]` inside `[0, 100]`. -/
theorem roundHalfEven_bounds (x : ℚ) (h0 : 0 ≤ x) (h1 : x ≤ 100) :
    0 ≤ roundHalfEven x ∧ roundHalfEven x ≤ 100 := by
  simp only [roundHalfEven]
  have hf0 : (0 : Int) ≤ ⌊x⌋ := Int.floor_nonneg.mpr h0
  have hf100 : ⌊x⌋ ≤ 100 := by
    have h := Int.floor_le_floor (α := ℚ) h1
    simpa using h
  have hfle : (⌊x⌋ : ℚ) ≤ x := Int.floor_le x
  split_ifs with hA hB hC
  · exact ⟨hf0, hf100⟩
  · constructor
    · omega
    · have hq : (⌊x⌋ : ℚ) < 100 := by linarith
      have h99 : ⌊x⌋ < 100 := by exact_mod_cast hq
      omega
  · exact ⟨hf0, hf100⟩
  · constructor
    · omega
    · have hr : x - (⌊x⌋ : ℚ) = 1/2 := le_antisymm (not_lt.mp hB) (not_lt.mp hA)
      have hq : (⌊x⌋ : ℚ) < 100 := by linarith
      have h99 : ⌊x⌋ < 100 := by exact_mod_cast hq
      omega

/-- `round(x, 2)` keeps a value of `[0, 1]` inside `[0, 1]`. -/
theorem pyRound2_bounds (x : ℚ) (h0 : 0 ≤ x) (h1 : x ≤ 1) :
    0 ≤ pyRound2 x ∧ pyRound2 x ≤ 1 := by
  unfold pyRound2
  have h := roundHalfEven_bounds (x * 100) (by linarith) (by linarith)
  have hc0 : (0 : ℚ) ≤ (roundHalfEven (x * 100) : ℚ) := by exact_mod_cast h.1
  have hc1 : ((roundHalfEven (x * 100) : ℚ)) ≤ 100 := by exact_mod_cast h.2
  constructor <;> [linarith; (rw [div_le_one (by norm_num)]; linarith)]

/-- When the range validator returns normally, the score is the rounded,
clipped sum of the base factors and the currency factor. -/
theorem score_eq_of_validate (row : Row) (validation : RangeResult)
    (h : validate_currency_range row = .ok validation) :
    calculate_confidence_score row =
      .ok (pyRound2 (min (confidence_base row +
        (if validation.is_valid then (0.25 : ℚ)
         else if validation.issues.length = 1 then (0.10 : ℚ) else 0)) 1)) := by
  unfold calculate_confidence_score
  rw [h]

/-- Claim C4 (code_bug): whenever the score is returned at all it lies in
`[0, 1]` and recomputation is trivially deterministic; but on a row whose
pounds field is `"Infinity"`, the currency-range factor calls `safe_to_int`,
whose uncaught `OverflowError` propagates, so no score in `[0, 1]` is
returned for that row. -/
theorem C4_score_range :
    (∀ (row : Row) (v : ℚ), calculate_confidence_score row = .ok v →
        0 ≤ v ∧ v ≤ 1 ∧ calculate_confidence_score row = calculate_confidence_score row) ∧
    calculate_confidence_score rowInfPounds = .error PyErr.overflowError := by
  constructor
  · intro row v h
    cases hvc : validate_currency_range row with
    | error e =>
        have hbad : calculate_confidence_score row = .error e := by
          unfold calculate_confidence_score
          rw [hvc]
        rw [hbad] at h
        exact absurd h (by simp)
    | ok validation =>
        have heq := score_eq_of_validate row validation hvc
        rw [heq] at h
        injection h with h'
        subst h'
        have hf6 : 0 ≤ (if validation.is_valid then (0.25 : ℚ)
            else if validation.issues.length = 1 then (0.10 : ℚ) else 0) ∧
            (if validation.is_valid then (0.25 : ℚ)
            else if validation.issues.length = 1 then (0.10 : ℚ) else 0) ≤ 0.25 := by
          split_ifs <;> norm_num
        have hb := confidence_base_bounds row
        have harg0 : 0 ≤ min (confidence_base row +
            (if validation.is_valid then (0.25 : ℚ)
             else if validation.issues.length = 1 then (0.10 : ℚ) else 0)) 1 :=
          le_min (by linarith [hb.1, hf6.1]) (by norm_num)
        have harg1 : min (confidence_base row +
            (if validation.is_valid then (0.25 : ℚ)
             else if validation.issues.length = 1 then (0.10 : ℚ) else 0)) 1 ≤ 1 :=
          min_le_right _ _
        have hp := pyRound2_bounds _ harg0 harg1
        exact ⟨hp.1, hp.2, rfl⟩
  · rfl

/-- Witness for C4 on a bare title row (score 0.70). -/
theorem C4_score_range_witness :
    0 ≤ pyRound2 (min (confidence_base rowTitle + 0.25) 1) ∧
    pyRound2 (min (confidence_base rowTitle + 0.25) 1) ≤ 1 := by
  have h := (C4_score_range).1 rowTitle
    (pyRound2 (min (confidence_base rowTitle + 0.25) 1)) rfl
  exact ⟨h.1, h.2.1⟩

/-- Claim C5 (confirmed): whenever the range validator reports a result, the
currency factor contributes 0.25 if it is valid, 0.10 if it reports exactly
one issue and 0 otherwise, and the score is that factor plus the five
0.15-weighted factors, clipped to 1.0 and rounded to two decimals. -/
theorem C5_currency_factor (row : Row) (validation : RangeResult)
    (h : validate_currency_range row = .ok validation) :
    calculate_confidence_score row =
      .ok (pyRound2 (min (confidence_base row +
        (if validation.is_valid then (0.25 : ℚ)
         else if validation.issues.length = 1 then (0.10 : ℚ) else 0)) 1)) :=
  score_eq_of_validate row validation h

/-- Witness for C5 on the 20-shilling row: exactly one issue, so the
currency factor is 0.10. -/
theorem C5_currency_factor_witness :
    calculate_confidence_score rowShillings20 =
      .ok (pyRound2 (min (confidence_base rowShillings20 + 0.10) 1)) := by
  have h := C5_currency_factor rowShillings20
    ⟨false, [⟨"amount_shillings", 20, "Shillings must be 0-19, got 20", "error"⟩]⟩ rfl
  simpa using h

/-- The entry-summing loop accumulates exactly the sum of the per-row pence
values. -/
theorem sumEntries_eq_sum (l : List Row) (vs : List Int) (acc : Int)
    (h : rowPences l = .ok vs) : sumEntries l acc = .ok (acc + vs.sum) := by
  induction l generalizing vs acc with
  | nil =>
      unfold rowPences at h
      injection h with h'
      subst h'
      simp [sumEntries]
  | cons r rest ih =>
      unfold rowPences at h
      cases hr : rowPence r with
      | error e =>
          rw [hr] at h
          exact absurd h (by simp)
      | ok v =>
          rw [hr] at h
          cases hrest : rowPences rest with
          | error e =>
              rw [hrest] at h
              exact absurd h (by simp)
          | ok vs' =>
              rw [hrest] at h
              injection h with h'
              subst h'
              unfold sumEntries
              rw [hr]
              dsimp only
              rw [ih vs' (acc + v) hrest]
              congr 1
              rw [List.sum_cons]
              ring

/-- Claim C1 (corrected): on a page with entry rows and total rows whose
amount fields all convert without raising, `validate_page_arithmetic`
compares the entry sum against the converted last total row; the reported
`difference_pence` is the absolute value of the difference (the source
applies `abs`), `matches` holds iff the difference is zero, and the status
is `"match"`/`"mismatch"` accordingly, with `can_validate = True`. -/
theorem C1_page_arithmetic (page : Page) (vals : List Int) (stated : Int)
    (hE : pageEntries page ≠ [])
    (hT : pageTotals page ≠ [])
    (hvals : rowPences (pageEntries page) = .ok vals)
    (hstated : rowPence ((pageTotals page).getLastD []) = .ok stated) :
    validate_page_arithmetic page = .ok (.validated
      (if vals.sum - stated = 0 then "match" else "mismatch")
      ⟨(pence_to_lsd vals.sum).1, (pence_to_lsd vals.sum).2.1,
       (pence_to_lsd vals.sum).2.2, vals.sum⟩
      ⟨(pence_to_lsd stated).1, (pence_to_lsd stated).2.1,
       (pence_to_lsd stated).2.2, stated⟩
      |vals.sum - stated|
      (decide (vals.sum - stated = 0))) ∧
    (validate_page_arithmetic page).map PageArithResult.can_validate = .ok true := by
  have hTlen : ¬((pageTotals page).length = 0) :=
    fun hh => hT (List.length_eq_zero.mp hh)
  have hElen : ¬((pageEntries page).length = 0) :=
    fun hh => hE (List.length_eq_zero.mp hh)
  have hsum : sumEntries (pageEntries page) 0 = .ok vals.sum := by
    have h := sumEntries_eq_sum (pageEntries page) vals 0 hvals
    simpa using h
  have hmain : validate_page_arithmetic page = .ok (.validated
      (if vals.sum - stated = 0 then "match" else "mismatch")
      ⟨(pence_to_lsd vals.sum).1, (pence_to_lsd vals.sum).2.1,
       (pence_to_lsd vals.sum).2.2, vals.sum⟩
      ⟨(pence_to_lsd stated).1, (pence_to_lsd stated).2.1,
       (pence_to_lsd stated).2.2, stated⟩
      |vals.sum - stated|
      (decide (vals.sum - stated = 0))) := by
    simp only [validate_page_arithmetic]
    rw [if_neg hTlen, if_neg hElen, hsum, hstated]
  exact ⟨hmain, by rw [hmain]; rfl⟩

/-- Witness for C1 at the specification's worked example:
£1 5s 6d + £0 14s 6d = 480 pence = £2 0s 0d, a match. -/
theorem C1_page_arithmetic_witness :
    validate_page_arithmetic pageWorkedExample =
      .ok (.validated "match" ⟨2, 0, 0, 480⟩ ⟨2, 0, 0, 480⟩ 0 true) ∧
    (validate_page_arithmetic pageWorkedExample).map PageArithResult.can_validate =
      .ok true := by
  have h := C1_page_arithmetic pageWorkedExample [306, 174] 480
    (by decide) (by decide) (by decide) (by decide)
  exact ⟨h.1.trans (by decide), h.2⟩

/-- Counterexample for C1 as stated: on a page whose entry sum (0) is below
the stated total (1 penny), the reported `difference_pence` is `abs(-1) = 1`,
not the signed difference `entry_total_pence - stated_total_pence = -1`. -/
theorem C1_difference_sign_counterexample :
    (validate_page_arithmetic pageEntryBelowTotal).map
      (fun res => decide (res.difference_pence =
        res.calculated.total_pence - res.stated.total_pence)) = .ok false := by
  rfl
